import Mathlib

/-!
Shallow embedding of the movie-catalog API core
(`src/routes/movies.py`, `src/schemas/movies.py`).

The relational store is modelled as explicit lists of records; the
session's `add`/`add_all` staging is modelled by returning the staged
records alongside results; commit either applies the staged changes or
(on an integrity error signalled by the external store) discards them.
Dates are modelled as integer day counts and the numeric `float` fields
as rationals (the code only compares them; no float rounding is
involved in any property considered here).
-/

/-- A lookup-entity row (genre / actor / language).  A staged, not yet
committed row has no id (`none`), matching "Newly staged records are not
yet assigned identity (no id) until the surrounding transaction commits". -/
structure EntityRecord where
  id : Option Nat
  name : String
deriving DecidableEq, Repr

/-- Result of the entity resolver: the list returned to the caller, the
rows newly staged into the session via `db.add_all`, and whether a store
query (`db.execute(select ...)`) was issued. -/
structure ResolverResult where
  returned : List EntityRecord
  staged : List EntityRecord
  queried : Bool
deriving DecidableEq, Repr

/-- Embedding of `get_or_create_entities(db, model, names)`
(`src/routes/movies.py` lines 32-46).  `table` is the current content of
the lookup table for the given model.

Python:
  if not names: return []
  existing_entities = rows whose name is in names
  existing_names = set of their names
  new_entities = [model(name=name) for name in names if name not in existing_names]
  if new_entities: db.add_all(new_entities)
  return list(existing_entities) + new_entities
-/
def get_or_create_entities (table : List EntityRecord) (names : List String) :
    ResolverResult :=
  if names.isEmpty then ⟨[], [], false⟩
  else
    let existing_entities := table.filter (fun e => names.contains e.name)
    let existing_names := existing_entities.map (fun e => e.name)
    let new_entities :=
      (names.filter (fun n => !(existing_names.contains n))).map
        (fun n => ⟨none, n⟩)
    ⟨existing_entities ++ new_entities, new_entities, true⟩

/-- Modelled from the spec: `MovieStatusEnum` (an "enumeration of
lifecycle states") lives in the external `database.models` module, which
is not part of this core.  Only the scenario value "RELEASED" is named by
the spec; the other constructors stand for the remaining lifecycle
states.  No property considered here depends on the particular set. -/
inductive MovieStatus where
  | released
  | postProduction
  | inProduction
deriving DecidableEq, Repr

/-- A country row.  A staged row has no id; `name` is the optional
display name (`CountryModel(code=..., name=None)` stages a row with no
display name). -/
structure CountryRecord where
  id : Option Nat
  code : String
  name : Option String
deriving DecidableEq, Repr

/-- A persisted movie row.  Dates are integer day counts; the related
lookup rows are referenced by their unique business keys (country code,
names), per the data-model invariant that those keys are unique. -/
structure MovieRecord where
  id : Nat
  name : String
  date : Int
  score : Rat
  overview : String
  status : MovieStatus
  budget : Rat
  revenue : Rat
  countryCode : String
  genreNames : List String
  actorNames : List String
  languageNames : List String
deriving DecidableEq, Repr

/-- The relational store: one list of rows per table. -/
structure DBState where
  movies : List MovieRecord
  countries : List CountryRecord
  genres : List EntityRecord
  actors : List EntityRecord
  languages : List EntityRecord
deriving DecidableEq, Repr

/-- Client-visible failures: `HTTPException(status_code, detail)` raised
by a handler, or a request rejected by the schema-validation layer
before the handler runs. -/
inductive ApiError where
  | http (status : Nat) (detail : String)
  | validation
deriving DecidableEq, Repr

/-- `total_pages = (total_items + per_page - 1) // per_page`
(`src/routes/movies.py` line 62). -/
def totalPages (totalItems perPage : Nat) : Nat :=
  (totalItems + perPage - 1) / perPage

/-- Insertion into a descending-by-id list (external store behavior). -/
def insertDesc (m : MovieRecord) : List MovieRecord → List MovieRecord
  | [] => [m]
  | x :: xs => if x.id ≤ m.id then m :: x :: xs else x :: insertDesc m xs

/-- `.order_by(MovieModel.id.desc())`: the store returns rows sorted by
descending id (external store behavior, modelled as insertion sort). -/
def sortByIdDesc (l : List MovieRecord) : List MovieRecord :=
  l.foldr insertDesc []

/-- The page fetch of the list endpoint: ordered by descending id,
`.offset((page - 1) * per_page).limit(per_page)`
(`src/routes/movies.py` lines 67-83). -/
def fetchMovies (store : List MovieRecord) (page perPage : Nat) :
    List MovieRecord :=
  ((sortByIdDesc store).drop ((page - 1) * perPage)).take perPage

/-- `MovieListResponseSchema` (`src/schemas/movies.py` lines 24-29);
`movies` keeps the fetched rows (the schema layer then projects each to
its summary fields). -/
structure MovieListResponse where
  movies : List MovieRecord
  prev_page : Option String
  next_page : Option String
  total_pages : Nat
  total_items : Nat
deriving DecidableEq, Repr

/-- Embedding of the `GET /movies/` handler `get_movies`
(`src/routes/movies.py` lines 49-106).  `page ≥ 1` and
`1 ≤ per_page ≤ 20` are enforced by the query-parameter layer before
the handler runs and appear as hypotheses of the theorems. -/
def get_movies (store : List MovieRecord) (page perPage : Nat) :
    Except ApiError MovieListResponse :=
  let total_items := store.length
  if total_items = 0 then
    .error (.http 404 "No movies found.")
  else
    let total_pages := totalPages total_items perPage
    if page > total_pages then
      .error (.http 404 "No movies found.")
    else
      let movies := fetchMovies store page perPage
      if movies.isEmpty then
        .error (.http 404 "No movies found.")
      else
        .ok
          { movies := movies
            prev_page :=
              if page > 1 then
                some ("/theater/movies/?page=" ++ toString (page - 1) ++
                  "&per_page=" ++ toString perPage)
              else none
            next_page :=
              if page < total_pages then
                some ("/theater/movies/?page=" ++ toString (page + 1) ++
                  "&per_page=" ++ toString perPage)
              else none
            total_pages := total_pages
            total_items := total_items }

/-- Detail string of the 409 duplicate error (`src/routes/movies.py`
lines 125-129).  The source wraps the two interpolated values in
single-quote characters; those quote characters are omitted here. -/
def duplicateMovieDetail (name : String) (date : Int) : String :=
  "A movie with the name " ++ name ++ " and release date " ++
    toString date ++ " already exists."

/-- Store-assigned id of a newly committed movie row (external store
behavior, modelled as one more than the largest existing id). -/
def freshMovieId (movies : List MovieRecord) : Nat :=
  movies.foldr (fun m acc => max m.id acc) 0 + 1

/-- Store-assigned ids of newly committed lookup rows (external store
behavior, modelled as consecutive). -/
def assignEntityIds (next : Nat) : List EntityRecord → List EntityRecord
  | [] => []
  | e :: es => { e with id := some next } :: assignEntityIds (next + 1) es

/-- Store-assigned ids of newly committed country rows. -/
def assignCountryIds (next : Nat) : List CountryRecord → List CountryRecord
  | [] => []
  | c :: cs => { c with id := some next } :: assignCountryIds (next + 1) cs

/-- `MovieCreateSchema` (`src/schemas/movies.py` lines 45-56) after
parsing: the full create payload. -/
structure MovieCreate where
  name : String
  date : Int
  score : Rat
  overview : String
  status : MovieStatus
  budget : Rat
  revenue : Rat
  country : String
  genres : List String
  actors : List String
  languages : List String
deriving DecidableEq, Repr

/-- Embedding of the `POST /movies/` handler `create_movie`
(`src/routes/movies.py` lines 114-182).  Returns the resulting store
state together with the response; an uncommitted request leaves the
store unchanged.  `commitIntegrityError` is the external store's verdict
at `db.commit()`: `true` means the commit raised `IntegrityError`
(e.g. a uniqueness violation), in which case the session is rolled back
and the staged rows are discarded. -/
def create_movie (st : DBState) (m : MovieCreate)
    (commitIntegrityError : Bool) :
    DBState × Except ApiError MovieRecord :=
  if st.movies.any (fun mv => mv.name == m.name && mv.date == m.date) then
    (st, .error (.http 409 (duplicateMovieDetail m.name m.date)))
  else
    let foundCountry := st.countries.find? (fun c => c.code == m.country)
    let stagedCountries : List CountryRecord :=
      if foundCountry.isSome then [] else [⟨none, m.country, none⟩]
    let gr := get_or_create_entities st.genres m.genres
    let ar := get_or_create_entities st.actors m.actors
    let lr := get_or_create_entities st.languages m.languages
    if commitIntegrityError then
      (st, .error (.http 400 "Invalid input data."))
    else
      let db_movie : MovieRecord :=
        { id := freshMovieId st.movies
          name := m.name
          date := m.date
          score := m.score
          overview := m.overview
          status := m.status
          budget := m.budget
          revenue := m.revenue
          countryCode := m.country
          genreNames := gr.returned.map (fun e => e.name)
          actorNames := ar.returned.map (fun e => e.name)
          languageNames := lr.returned.map (fun e => e.name) }
      ({ movies := st.movies ++ [db_movie]
         countries := st.countries ++
           assignCountryIds (st.countries.length + 1) stagedCountries
         genres := st.genres ++
           assignEntityIds (st.genres.length + 1) gr.staged
         actors := st.actors ++
           assignEntityIds (st.actors.length + 1) ar.staged
         languages := st.languages ++
           assignEntityIds (st.languages.length + 1) lr.staged },
       .ok db_movie)

/-- `MovieUpdateSchema` (`src/schemas/movies.py` lines 99-106) with
`exclude_unset` semantics: `none` means the field was absent from the
request payload. -/
structure MovieUpdate where
  name : Option String := none
  date : Option Int := none
  score : Option Rat := none
  overview : Option String := none
  status : Option MovieStatus := none
  budget : Option Rat := none
  revenue : Option Rat := none
deriving DecidableEq, Repr

/-- The payload of a PATCH request whose body sets no field at all. -/
def emptyUpdate : MovieUpdate := {}

/-- The `for field, value in update_data.items(): setattr(movie, field,
value)` loop (`src/routes/movies.py` lines 249-252): each present field
overwrites the record, each absent field is left untouched. -/
def applyUpdate (m : MovieRecord) (u : MovieUpdate) : MovieRecord :=
  { m with
    name := u.name.getD m.name
    date := u.date.getD m.date
    score := u.score.getD m.score
    overview := u.overview.getD m.overview
    status := u.status.getD m.status
    budget := u.budget.getD m.budget
    revenue := u.revenue.getD m.revenue }

/-- `db.get(MovieModel, movie_id)`: primary-key lookup. -/
def findMovie (st : DBState) (movieId : Nat) : Option MovieRecord :=
  st.movies.find? (fun mv => mv.id == movieId)

/-- Commit verdict for the PATCH handler, modelled deterministically
from the store constraints the spec states: the only constraint the
updated row can newly violate is the unique `(name, date)` pair on
movies; the commit raises exactly when another row carries the updated
pair. -/
def updateCommitViolation (movies : List MovieRecord)
    (updated : MovieRecord) : Bool :=
  movies.any (fun mv =>
    mv.id != updated.id && mv.name == updated.name &&
      mv.date == updated.date)

/-- Embedding of the `PATCH /movies/{movie_id}/` handler `update_movie`
(`src/routes/movies.py` lines 236-263): 404 when the id is absent,
otherwise apply the present fields and commit; a failing commit rolls
back (store unchanged) and reports the generic invalid-input error. -/
def update_movie (st : DBState) (movieId : Nat) (u : MovieUpdate) :
    DBState × Except ApiError String :=
  match findMovie st movieId with
  | none => (st, .error (.http 404 "Movie with the given ID was not found."))
  | some movie =>
    let updated := applyUpdate movie u
    if updateCommitViolation st.movies updated then
      (st, .error (.http 400 "Invalid input data."))
    else
      ({ st with
          movies := st.movies.map
            (fun mv => if mv.id == movieId then updated else mv) },
       .ok "Movie updated successfully.")

/-- Modelled from the spec: the external ISO 3166-1 alpha-3 reference
dataset consulted by `pycountry.countries.get(alpha_3=...)` — the 249
officially assigned alpha-3 codes. -/
def iso3166Alpha3 : List String :=
  ["ABW", "AFG", "AGO", "AIA", "ALA", "ALB", "AND", "ARE", "ARG", "ARM",
   "ASM", "ATA", "ATF", "ATG", "AUS", "AUT", "AZE", "BDI", "BEL", "BEN",
   "BES", "BFA", "BGD", "BGR", "BHR", "BHS", "BIH", "BLM", "BLR", "BLZ",
   "BMU", "BOL", "BRA", "BRB", "BRN", "BTN", "BVT", "BWA", "CAF", "CAN",
   "CCK", "CHE", "CHL", "CHN", "CIV", "CMR", "COD", "COG", "COK", "COL",
   "COM", "CPV", "CRI", "CUB", "CUW", "CXR", "CYM", "CYP", "CZE", "DEU",
   "DJI", "DMA", "DNK", "DOM", "DZA", "ECU", "EGY", "ERI", "ESH", "ESP",
   "EST", "ETH", "FIN", "FJI", "FLK", "FRA", "FRO", "FSM", "GAB", "GBR",
   "GEO", "GGY", "GHA", "GIB", "GIN", "GLP", "GMB", "GNB", "GNQ", "GRC",
   "GRD", "GRL", "GTM", "GUF", "GUM", "GUY", "HKG", "HMD", "HND", "HRV",
   "HTI", "HUN", "IDN", "IMN", "IND", "IOT", "IRL", "IRN", "IRQ", "ISL",
   "ISR", "ITA", "JAM", "JEY", "JOR", "JPN", "KAZ", "KEN", "KGZ", "KHM",
   "KIR", "KNA", "KOR", "KWT", "LAO", "LBN", "LBR", "LBY", "LCA", "LIE",
   "LKA", "LSO", "LTU", "LUX", "LVA", "MAC", "MAF", "MAR", "MCO", "MDA",
   "MDG", "MDV", "MEX", "MHL", "MKD", "MLI", "MLT", "MMR", "MNE", "MNG",
   "MNP", "MOZ", "MRT", "MSR", "MTQ", "MUS", "MWI", "MYS", "MYT", "NAM",
   "NCL", "NER", "NFK", "NGA", "NIC", "NIU", "NLD", "NOR", "NPL", "NRU",
   "NZL", "OMN", "PAK", "PAN", "PCN", "PER", "PHL", "PLW", "PNG", "POL",
   "PRI", "PRK", "PRT", "PRY", "PSE", "PYF", "QAT", "REU", "ROU", "RUS",
   "RWA", "SAU", "SDN", "SEN", "SGP", "SGS", "SHN", "SJM", "SLB", "SLE",
   "SLV", "SMR", "SOM", "SPM", "SRB", "SSD", "STP", "SUR", "SVK", "SVN",
   "SWE", "SWZ", "SXM", "SYC", "SYR", "TCA", "TCD", "TGO", "THA", "TJK",
   "TKL", "TKM", "TLS", "TON", "TTO", "TUN", "TUR", "TUV", "TWN", "TZA",
   "UGA", "UKR", "UMI", "URY", "USA", "UZB", "VAT", "VCT", "VEN", "VGB",
   "VIR", "VNM", "VUT", "WLF", "WSM", "YEM", "ZAF", "ZMB", "ZWE"]

/-- ASCII uppercase of one character (`str.upper()` on the code
points the country validator deals with). -/
def upperChar (c : Char) : Char :=
  if 97 ≤ c.toNat ∧ c.toNat ≤ 122 then Char.ofNat (c.toNat - 32) else c

/-- ASCII uppercase of a string: `value.upper()` of the source. -/
def upperStr (s : String) : String :=
  ⟨s.data.map upperChar⟩

/-- Embedding of the `validate_country_code` field validator
(`src/schemas/movies.py` lines 67-81): reject the empty string, upper-
case the input, accept exactly the ISO alpha-3 codes and return the
normalized code.  The source wraps the code in the failure message in
single-quote characters; those quote characters are omitted here. -/
def validate_country_code (value : String) : Except String String :=
  if value = "" then .error "Country code is required"
  else
    let country_code := upperStr value
    if iso3166Alpha3.contains country_code then .ok country_code
    else
      .error (country_code ++
        " is not a valid ISO 3166-1 alpha-3 country code")

/-- The schema layer for `MovieCreateSchema`: the declarative `Field`
constraints (`name` at most 255 characters, `score` in 0..100, `budget`
and `revenue` non-negative), the date validator (`date` at most 365 days
after `today`, the clock being passed in explicitly), and the country
validator, whose normalized result replaces the `country` field.  Any
violation rejects the request before the handler runs. -/
def validateMovieCreate (today : Int) (m : MovieCreate) :
    Except ApiError MovieCreate :=
  match validate_country_code m.country with
  | .error _ => .error .validation
  | .ok code =>
    if m.name.length ≤ 255 ∧ 0 ≤ m.score ∧ m.score ≤ 100 ∧
        0 ≤ m.budget ∧ 0 ≤ m.revenue ∧ m.date ≤ today + 365 then
      .ok { m with country := code }
    else .error .validation

/-- The schema layer for `MovieUpdateSchema`: the same declarative
`Field` constraints, applied only to the fields present in the payload
(`None` defaults carry no constraint). -/
def validateMovieUpdate (u : MovieUpdate) : Except ApiError MovieUpdate :=
  if (u.name.all fun n => decide (n.length ≤ 255)) &&
      (u.score.all fun q => decide (0 ≤ q) && decide (q ≤ 100)) &&
      (u.budget.all fun q => decide (0 ≤ q)) &&
      (u.revenue.all fun q => decide (0 ≤ q)) then
    .ok u
  else .error .validation

/-- `POST /movies/` as seen by the client: schema validation, then the
handler.  A rejected request never reaches the store. -/
def createEndpoint (st : DBState) (today : Int) (raw : MovieCreate)
    (commitIntegrityError : Bool) :
    DBState × Except ApiError MovieRecord :=
  match validateMovieCreate today raw with
  | .error e => (st, .error e)
  | .ok m => create_movie st m commitIntegrityError

/-- `PATCH /movies/{movie_id}/` as seen by the client: schema
validation, then the handler.  A rejected request never reaches the
store. -/
def updateEndpoint (st : DBState) (movieId : Nat) (u : MovieUpdate) :
    DBState × Except ApiError String :=
  match validateMovieUpdate u with
  | .error e => (st, .error e)
  | .ok u2 => update_movie st movieId u2

/-- A sample persisted movie row, used to instantiate the theorems. -/
def sampleMovie : MovieRecord :=
  { id := 1
    name := "Dune"
    date := 19723
    score := 85
    overview := "Desert planet epic"
    status := .released
    budget := 1000
    revenue := 5000
    countryCode := "USA"
    genreNames := ["Sci-Fi"]
    actorNames := ["Actor A"]
    languageNames := ["English"] }

/-- A sample store holding one movie and its related lookup rows. -/
def sampleState : DBState :=
  { movies := [sampleMovie]
    countries := [⟨some 1, "USA", none⟩]
    genres := [⟨some 1, "Sci-Fi"⟩]
    actors := [⟨some 1, "Actor A"⟩]
    languages := [⟨some 1, "English"⟩] }

/-- The list response produced for `sampleState` at page 1, page size 10. -/
def sampleListResponse : MovieListResponse :=
  { movies := [sampleMovie]
    prev_page := none
    next_page := none
    total_pages := 1
    total_items := 1 }

/-- A create payload that duplicates the `(name, date)` pair of
`sampleMovie`. -/
def dupCreate : MovieCreate :=
  { name := "Dune"
    date := 19723
    score := 90
    overview := "Remake"
    status := .released
    budget := 1
    revenue := 2
    country := "USA"
    genres := ["Sci-Fi"]
    actors := []
    languages := [] }

/-- A create payload whose `(name, date)` pair is not in `sampleState`. -/
def freshCreate : MovieCreate :=
  { name := "Arrival"
    date := 17100
    score := 80
    overview := "First contact"
    status := .released
    budget := 500
    revenue := 900
    country := "USA"
    genres := ["Sci-Fi"]
    actors := ["Actor A"]
    languages := ["English"] }

/-- A create payload carrying the invalid country code ZZZ. -/
def badCountryCreate : MovieCreate :=
  { name := "Nowhere"
    date := 17100
    score := 50
    overview := "Lost"
    status := .released
    budget := 1
    revenue := 1
    country := "ZZZ"
    genres := []
    actors := []
    languages := [] }

/-- An update payload whose present `score` field violates the 0..100
range constraint. -/
def badScoreUpdate : MovieUpdate :=
  { score := some 101 }

/-- Inserting into a sorted list grows its length by one. -/
theorem length_insertDesc (m : MovieRecord) (l : List MovieRecord) :
    (insertDesc m l).length = l.length + 1 := by
  induction l with
  | nil => rfl
  | cons x xs ih =>
    unfold insertDesc
    by_cases h : x.id ≤ m.id
    · simp [h]
    · simp only [if_neg h, List.length_cons, ih]

/-- Sorting preserves the number of rows. -/
theorem length_sortByIdDesc (l : List MovieRecord) :
    (sortByIdDesc l).length = l.length := by
  induction l with
  | nil => rfl
  | cons x xs ih =>
    unfold sortByIdDesc at ih ⊢
    simp only [List.foldr_cons]
    rw [length_insertDesc, ih, List.length_cons]

/-- Arithmetic core of pagination: a page number within the ceiling
page count starts at an offset strictly below the record count. -/
theorem offset_lt_of_le_totalPages {page s total : Nat} (hp : 1 ≤ page)
    (hs : 1 ≤ s) (ht : 1 ≤ total) (h : page ≤ totalPages total s) :
    (page - 1) * s < total := by
  by_contra hc
  push_neg at hc
  have hmono : (total + s - 1) / s ≤ (s - 1 + (page - 1) * s) / s := by
    apply Nat.div_le_div_right
    omega
  have heq : (s - 1 + (page - 1) * s) / s = (s - 1) / s + (page - 1) :=
    Nat.add_mul_div_right (s - 1) (page - 1) (by omega)
  have hz : (s - 1) / s = 0 := Nat.div_eq_of_lt (by omega)
  unfold totalPages at h
  omega

/-- A page within range over a non-empty store fetches at least one
row. -/
theorem fetchMovies_isEmpty_false {store : List MovieRecord}
    {page perPage : Nat} (hp : 1 ≤ page) (hs : 1 ≤ perPage)
    (ht : 0 < store.length)
    (h : page ≤ totalPages store.length perPage) :
    (fetchMovies store page perPage).isEmpty = false := by
  have hlt : (page - 1) * perPage < store.length :=
    offset_lt_of_le_totalPages hp hs ht h
  have hlen : (fetchMovies store page perPage).length =
      min perPage ((sortByIdDesc store).length - (page - 1) * perPage) := by
    unfold fetchMovies
    rw [List.length_take, List.length_drop]
  have hsort : (sortByIdDesc store).length = store.length :=
    length_sortByIdDesc store
  rw [List.isEmpty_eq_false_iff_exists_mem]
  have hpos : 0 < (fetchMovies store page perPage).length := by
    rw [hlen, hsort]
    omega
  exact List.exists_mem_of_length_pos hpos

/-- C1: the claim asserts that the resolver returns exactly one record
per distinct input name, staging at most one new record for a repeated
not-yet-persisted name.  The code does not deduplicate within the input
list: on the empty table with input [A, A] it stages two records named
A and returns both, although the input has a single distinct name.
(The spec states the deduplication contract explicitly, and staging two
same-named rows violates the unique-name invariant at commit time, so
this is a slip in the code, not in the spec.) -/
theorem claim_C1_code_behavior :
    (get_or_create_entities [] ["A", "A"]).returned.map (fun e => e.name) =
      ["A", "A"] ∧
    (get_or_create_entities [] ["A", "A"]).staged.length = 2 ∧
    (["A", "A"] : List String).dedup.length = 1 := by
  refine ⟨rfl, rfl, by decide⟩

/-- C2: on the empty input list the resolver returns the empty list,
issues no query and stages nothing, whatever the table holds. -/
theorem claim_C2 (table : List EntityRecord) :
    get_or_create_entities table [] = ⟨[], [], false⟩ := rfl

/-- C3: for page ≥ 1 and page size in 1..20, the list operation fails
with 404 exactly when the store is empty or the page exceeds the
ceiling page count, and otherwise returns the page fetched at offset
(page - 1) * per_page with limit per_page, together with the page count
and the total. -/
theorem claim_C3 (store : List MovieRecord) (page perPage : Nat)
    (hpage : 1 ≤ page) (hper1 : 1 ≤ perPage) (hper2 : perPage ≤ 20) :
    (get_movies store page perPage = .error (.http 404 "No movies found.") ↔
      store.length = 0 ∨ totalPages store.length perPage < page) ∧
    (store.length ≠ 0 → page ≤ totalPages store.length perPage →
      ∃ r, get_movies store page perPage = .ok r ∧
        r.movies = fetchMovies store page perPage ∧
        r.total_pages = totalPages store.length perPage ∧
        r.total_items = store.length) := by
  unfold get_movies
  by_cases h0 : store.length = 0
  · simp [h0]
  · by_cases h1 : totalPages store.length perPage < page
    · simp [h0, h1]
    · have hemp := fetchMovies_isEmpty_false hpage hper1
        (Nat.pos_of_ne_zero h0) (by omega)
      simp [h0, h1, hemp]

/-- C3 witness: one movie, page 1, page size 10. -/
theorem claim_C3_witness :
    ∃ r, get_movies [sampleMovie] 1 10 = .ok r ∧
      r.movies = fetchMovies [sampleMovie] 1 10 ∧
      r.total_pages = totalPages ([sampleMovie] : List MovieRecord).length 10 ∧
      r.total_items = ([sampleMovie] : List MovieRecord).length :=
  (claim_C3 [sampleMovie] 1 10 (by decide) (by decide) (by decide)).2
    (by decide) (by decide)

/-- C4: in every successful list response, prev_page is null exactly on
the first page and next_page is null exactly on the last page. -/
theorem claim_C4 (store : List MovieRecord) (page perPage : Nat)
    (r : MovieListResponse) (hpage : 1 ≤ page)
    (h : get_movies store page perPage = .ok r) :
    (r.prev_page = none ↔ page = 1) ∧
    (r.next_page = none ↔ page = r.total_pages) := by
  unfold get_movies at h
  by_cases h0 : store.length = 0
  · simp [h0] at h
  · by_cases h1 : totalPages store.length perPage < page
    · simp [h0, h1] at h
    · by_cases h2 : (fetchMovies store page perPage).isEmpty
      · simp [h0, h1, h2] at h
      · simp [h0, h1, h2] at h
        subst h
        constructor
        · constructor
          · intro hnone
            by_contra hne
            simp only [if_pos (by omega : page > 1)] at hnone
            exact Option.some_ne_none _ hnone
          · intro h1eq
            simp [h1eq]
        · constructor
          · intro hnone
            simp only [MovieListResponse.total_pages]
            by_cases hlt : page < totalPages store.length perPage
            · simp only [if_pos hlt] at hnone
              exact absurd hnone (Option.some_ne_none _)
            · omega
          · intro heq
            simp only [MovieListResponse.total_pages] at heq
            have : ¬ page < totalPages store.length perPage := by omega
            simp [this]

/-- C4 witness: the single-page response over one movie has both links
null. -/
theorem claim_C4_witness :
    (sampleListResponse.prev_page = none ↔ 1 = 1) ∧
    (sampleListResponse.next_page = none ↔
      1 = sampleListResponse.total_pages) :=
  claim_C4 [sampleMovie] 1 10 sampleListResponse (by decide) (by rfl)

/-- C5: a create request whose (name, date) pair matches a persisted
movie fails with the 409 conflict error and leaves the store exactly as
it was: no movie, country, genre, actor or language row is created and
the existing movie is untouched. -/
theorem claim_C5 (st : DBState) (m : MovieCreate) (b : Bool)
    (mv : MovieRecord) (hmem : mv ∈ st.movies)
    (hname : mv.name = m.name) (hdate : mv.date = m.date) :
    create_movie st m b =
      (st, .error (.http 409 (duplicateMovieDetail m.name m.date))) := by
  unfold create_movie
  have hany :
      st.movies.any (fun x => x.name == m.name && x.date == m.date) = true :=
    List.any_eq_true.mpr ⟨mv, hmem, by simp [hname, hdate]⟩
  simp [hany]

/-- C5 witness: recreating the sample movie with the same name and date
is rejected with 409 and the store is unchanged. -/
theorem claim_C5_witness :
    create_movie sampleState dupCreate false =
      (sampleState,
        .error (.http 409 (duplicateMovieDetail dupCreate.name
          dupCreate.date))) :=
  claim_C5 sampleState dupCreate false sampleMovie (by decide) rfl rfl

/-- C6: when the duplicate pre-check passes but the commit raises an
integrity error, the transaction is rolled back — the resulting store is
the original one — and the response is the generic 400 invalid-input
error, not the specific conflict message. -/
theorem claim_C6 (st : DBState) (m : MovieCreate)
    (hnodup :
      st.movies.any (fun x => x.name == m.name && x.date == m.date) = false) :
    create_movie st m true = (st, .error (.http 400 "Invalid input data.")) := by
  unfold create_movie
  simp [hnodup]

/-- C6 witness: a fresh create over the sample store whose commit raises
an integrity error rolls back and reports 400. -/
theorem claim_C6_witness :
    create_movie sampleState freshCreate true =
      (sampleState, .error (.http 400 "Invalid input data.")) :=
  claim_C6 sampleState freshCreate (by decide)

/-- Replacing, in a list of movies, the row carrying a given id keeps
that row findable by id, now holding the replacement. -/
theorem find?_map_replace {l : List MovieRecord} {movieId : Nat}
    {movie updated : MovieRecord}
    (hfind : l.find? (fun mv => mv.id == movieId) = some movie)
    (hid : updated.id = movie.id) :
    (l.map (fun mv => if mv.id == movieId then updated else mv)).find?
      (fun mv => mv.id == movieId) = some updated := by
  induction l with
  | nil => simp at hfind
  | cons a t ih =>
    cases h : (a.id == movieId) with
    | true =>
      simp only [List.find?_cons, h] at hfind
      injection hfind with hfind
      subst hfind
      have h2 : (updated.id == movieId) = true := by rw [hid]; exact h
      simp only [List.map_cons, if_pos h, List.find?_cons, h2]
    | false =>
      simp only [List.find?_cons, h] at hfind
      have hne : ¬((a.id == movieId) = true) := by simp [h]
      simp only [List.map_cons, if_neg hne]
      simp only [List.find?_cons, h]
      exact ih hfind

/-- Replacing the row carrying a given id by itself is the identity when
ids are unique. -/
theorem map_replace_self {l : List MovieRecord} {movieId : Nat}
    {movie : MovieRecord}
    (hfind : l.find? (fun mv => mv.id == movieId) = some movie)
    (hnodup : (l.map (fun mv => mv.id)).Nodup) :
    l.map (fun mv => if mv.id == movieId then movie else mv) = l := by
  induction l with
  | nil => rfl
  | cons a t ih =>
    simp only [List.map_cons, List.nodup_cons, List.mem_map] at hnodup
    cases h : (a.id == movieId) with
    | true =>
      simp only [List.find?_cons, h] at hfind
      injection hfind with hfind
      subst hfind
      simp only [List.map_cons, if_pos h, List.cons.injEq, true_and]
      have htail : t.map (fun mv => if mv.id == movieId then a else mv) =
          t.map id := by
        apply List.map_congr_left
        intro x hx
        have hxne : x.id ≠ a.id := by
          intro hcontra
          exact hnodup.1 ⟨x, hx, hcontra⟩
        have hxf : ¬((x.id == movieId) = true) := by
          intro hcontra
          apply hxne
          rw [beq_iff_eq.mp hcontra]
          exact (beq_iff_eq.mp h).symm
        simp only [if_neg hxf, id_eq]
      rw [htail, List.map_id]
    | false =>
      simp only [List.find?_cons, h] at hfind
      have hne : ¬((a.id == movieId) = true) := by simp [h]
      simp only [List.map_cons, if_neg hne, List.cons.injEq, true_and]
      exact ih hfind hnodup.2

/-- C7: a PATCH on an existing movie succeeds with the acknowledgment,
stores exactly the sparse application of the payload, leaves every
absent field at its prior value, and with an empty payload (under
unique ids) leaves the store entirely unchanged while still returning
the success acknowledgment. -/
theorem claim_C7 (st : DBState) (movieId : Nat) (movie : MovieRecord)
    (u : MovieUpdate)
    (hfind : findMovie st movieId = some movie)
    (hnoviol :
      updateCommitViolation st.movies (applyUpdate movie u) = false) :
    ((update_movie st movieId u).2 = .ok "Movie updated successfully." ∧
      findMovie (update_movie st movieId u).1 movieId =
        some (applyUpdate movie u)) ∧
    ((u.name = none → (applyUpdate movie u).name = movie.name) ∧
     (u.date = none → (applyUpdate movie u).date = movie.date) ∧
     (u.score = none → (applyUpdate movie u).score = movie.score) ∧
     (u.overview = none → (applyUpdate movie u).overview = movie.overview) ∧
     (u.status = none → (applyUpdate movie u).status = movie.status) ∧
     (u.budget = none → (applyUpdate movie u).budget = movie.budget) ∧
     (u.revenue = none → (applyUpdate movie u).revenue = movie.revenue)) ∧
    (u = emptyUpdate → (st.movies.map (fun mv => mv.id)).Nodup →
      update_movie st movieId u = (st, .ok "Movie updated successfully.")) := by
  have hid : (applyUpdate movie u).id = movie.id := rfl
  refine ⟨⟨?_, ?_⟩, ⟨?_, ?_, ?_, ?_, ?_, ?_, ?_⟩, ?_⟩
  · simp [update_movie, hfind, hnoviol]
  · simp only [update_movie, hfind, hnoviol, Bool.false_eq_true, if_false]
    exact find?_map_replace hfind hid
  · intro h; simp [applyUpdate, h]
  · intro h; simp [applyUpdate, h]
  · intro h; simp [applyUpdate, h]
  · intro h; simp [applyUpdate, h]
  · intro h; simp [applyUpdate, h]
  · intro h; simp [applyUpdate, h]
  · intro h; simp [applyUpdate, h]
  · intro hu hnodup
    subst hu
    simp only [update_movie, hfind, hnoviol, Bool.false_eq_true, if_false]
    have hm := map_replace_self hfind hnodup
    refine Prod.ext ?_ rfl
    show ({ st with movies := (st.movies.map
      (fun mv => if mv.id == movieId then movie else mv)) } : DBState) = st
    rw [hm]

/-- C7 witness: the empty PATCH on the sample store succeeds, changes no
field and leaves the store unchanged. -/
theorem claim_C7_witness :
    ((update_movie sampleState 1 emptyUpdate).2 =
        .ok "Movie updated successfully." ∧
      findMovie (update_movie sampleState 1 emptyUpdate).1 1 =
        some (applyUpdate sampleMovie emptyUpdate)) ∧
    ((emptyUpdate.name = none →
        (applyUpdate sampleMovie emptyUpdate).name = sampleMovie.name) ∧
     (emptyUpdate.date = none →
        (applyUpdate sampleMovie emptyUpdate).date = sampleMovie.date) ∧
     (emptyUpdate.score = none →
        (applyUpdate sampleMovie emptyUpdate).score = sampleMovie.score) ∧
     (emptyUpdate.overview = none →
        (applyUpdate sampleMovie emptyUpdate).overview =
          sampleMovie.overview) ∧
     (emptyUpdate.status = none →
        (applyUpdate sampleMovie emptyUpdate).status = sampleMovie.status) ∧
     (emptyUpdate.budget = none →
        (applyUpdate sampleMovie emptyUpdate).budget = sampleMovie.budget) ∧
     (emptyUpdate.revenue = none →
        (applyUpdate sampleMovie emptyUpdate).revenue =
          sampleMovie.revenue)) ∧
    (emptyUpdate = emptyUpdate →
      (sampleState.movies.map (fun mv => mv.id)).Nodup →
      update_movie sampleState 1 emptyUpdate =
        (sampleState, .ok "Movie updated successfully.")) :=
  claim_C7 sampleState 1 sampleMovie emptyUpdate rfl rfl

/-- A successful country validation returns the uppercased input, which
belongs to the ISO 3166-1 alpha-3 set. -/
theorem validate_country_code_ok {v c : String}
    (h : validate_country_code v = .ok c) :
    c = (upperStr v) ∧ iso3166Alpha3.contains (upperStr v) = true := by
  unfold validate_country_code at h
  by_cases h1 : v = ""
  · rw [if_pos h1] at h
    exact absurd h (by simp)
  · rw [if_neg h1] at h
    simp only [] at h
    cases h2 : iso3166Alpha3.contains (upperStr v) with
    | true =>
      rw [h2, if_pos rfl] at h
      injection h with h
      exact ⟨h.symm, rfl⟩
    | false =>
      rw [h2, if_neg (by simp)] at h
      exact absurd h (by simp)

/-- C8: the country code is validated case-insensitively against the
ISO 3166-1 alpha-3 set — acceptance is exactly non-emptiness plus
membership of the uppercased input — the value the handler receives is
the uppercase normalization, a code outside the set (such as ZZZ) is
rejected before the store is touched whatever the other fields hold,
and ZZZ is outside the set. -/
theorem claim_C8 :
    (∀ v : String, validate_country_code v = .ok (upperStr v) ↔
      v ≠ "" ∧ iso3166Alpha3.contains (upperStr v) = true) ∧
    (∀ today raw m, validateMovieCreate today raw = .ok m →
      m.country = (upperStr raw.country) ∧
      iso3166Alpha3.contains m.country = true) ∧
    (∀ st today raw b, iso3166Alpha3.contains (upperStr raw.country) = false →
      createEndpoint st today raw b = (st, .error .validation)) ∧
    iso3166Alpha3.contains "ZZZ" = false := by
  refine ⟨?_, ?_, ?_, ?_⟩
  · intro v
    constructor
    · intro h
      obtain ⟨_, h2⟩ := validate_country_code_ok h
      refine ⟨?_, h2⟩
      intro hv
      rw [hv] at h
      exact absurd h (by simp [validate_country_code])
    · rintro ⟨h1, h2⟩
      unfold validate_country_code
      rw [if_neg h1]
      simp only []
      rw [if_pos h2]
  · intro today raw m h
    unfold validateMovieCreate at h
    cases hv : validate_country_code raw.country with
    | error e =>
      rw [hv] at h
      exact absurd h (by simp)
    | ok code =>
      rw [hv] at h
      obtain ⟨hc, hmem⟩ := validate_country_code_ok hv
      split_ifs at h with hcond
      injection h with h
      subst h
      exact ⟨hc, by rw [hc]; exact hmem⟩
  · intro st today raw b h
    cases hv : validate_country_code raw.country with
    | ok code =>
      obtain ⟨_, hmem⟩ := validate_country_code_ok hv
      rw [hmem] at h
      exact absurd h (by simp)
    | error e =>
      simp [createEndpoint, validateMovieCreate, hv]
  · decide

/-- C8 witness: the lower-case input usa is accepted and normalized to
USA, and a create carrying country ZZZ is rejected by validation with
the sample store left unchanged. -/
theorem claim_C8_witness :
    validate_country_code "usa" = .ok ((upperStr "usa")) ∧
    createEndpoint sampleState 17000 badCountryCreate false =
      (sampleState, .error .validation) :=
  ⟨(claim_C8.1 "usa").mpr ⟨by decide, by decide⟩,
   claim_C8.2.2.1 sampleState 17000 badCountryCreate false (by decide)⟩

/-- C9: update payloads face the same declarative range constraints as
create — present name at most 255 characters, present score in 0..100,
present budget and revenue non-negative — validation succeeds exactly
when every present field satisfies its constraint, and a violating
payload is rejected by the schema layer with the store untouched. -/
theorem claim_C9 (st : DBState) (movieId : Nat) (u : MovieUpdate) :
    (validateMovieUpdate u = .ok u ↔
      ((∀ n ∈ u.name, n.length ≤ 255) ∧
       (∀ q ∈ u.score, 0 ≤ q ∧ q ≤ 100) ∧
       (∀ q ∈ u.budget, 0 ≤ q) ∧
       (∀ q ∈ u.revenue, 0 ≤ q))) ∧
    (((∃ n ∈ u.name, 255 < n.length) ∨
      (∃ q ∈ u.score, q < 0 ∨ 100 < q) ∨
      (∃ q ∈ u.budget, q < 0) ∨
      (∃ q ∈ u.revenue, q < 0)) →
     updateEndpoint st movieId u = (st, .error .validation)) := by
  have hcond : ((u.name.all fun n => decide (n.length ≤ 255)) &&
      (u.score.all fun q => decide (0 ≤ q) && decide (q ≤ 100)) &&
      (u.budget.all fun q => decide (0 ≤ q)) &&
      (u.revenue.all fun q => decide (0 ≤ q))) = true ↔
      ((∀ n ∈ u.name, n.length ≤ 255) ∧
       (∀ q ∈ u.score, 0 ≤ q ∧ q ≤ 100) ∧
       (∀ q ∈ u.budget, 0 ≤ q) ∧
       (∀ q ∈ u.revenue, 0 ≤ q)) := by
    cases hn : u.name <;> cases hs : u.score <;> cases hb : u.budget <;>
      cases hr : u.revenue <;>
      simp [Option.all, hn, hs, hb, hr, and_assoc]
  constructor
  · constructor
    · intro h
      apply hcond.mp
      by_contra hc
      unfold validateMovieUpdate at h
      rw [if_neg hc] at h
      exact absurd h (by simp)
    · intro h
      unfold validateMovieUpdate
      rw [if_pos (hcond.mpr h)]
  · intro hviol
    have hfalse : ¬(((u.name.all fun n => decide (n.length ≤ 255)) &&
        (u.score.all fun q => decide (0 ≤ q) && decide (q ≤ 100)) &&
        (u.budget.all fun q => decide (0 ≤ q)) &&
        (u.revenue.all fun q => decide (0 ≤ q))) = true) := by
      intro hc
      obtain ⟨h1, h2, h3, h4⟩ := hcond.mp hc
      rcases hviol with ⟨n, hn, hlen⟩ | ⟨q, hq, hrange⟩ |
        ⟨q, hq, hneg⟩ | ⟨q, hq, hneg⟩
      · exact absurd (h1 n hn) (by omega)
      · rcases hrange with hlt | hgt
        · exact absurd (h2 q hq).1
            (by exact fun hle => absurd hlt (not_lt.mpr hle))
        · exact absurd (h2 q hq).2
            (by exact fun hle => absurd hgt (not_lt.mpr hle))
      · exact absurd (h3 q hq) (fun hle => absurd hneg (not_lt.mpr hle))
      · exact absurd (h4 q hq) (fun hle => absurd hneg (not_lt.mpr hle))
    unfold updateEndpoint validateMovieUpdate
    rw [if_neg hfalse]

/-- C9 witness: a PATCH carrying score 101 is rejected by validation
and leaves the sample store unchanged. -/
theorem claim_C9_witness :
    updateEndpoint sampleState 1 badScoreUpdate =
      (sampleState, .error .validation) :=
  (claim_C9 sampleState 1 badScoreUpdate).2
    (Or.inr (Or.inl ⟨101, rfl, Or.inr (by decide)⟩))

/-- C10: under a positive total and a page within the page count, the
fetched page is non-empty, so the not-found branch taken after the
fetch when the result is empty can never fire — the handler reaches
the success path. -/
theorem claim_C10 (store : List MovieRecord) (page perPage : Nat)
    (hpage : 1 ≤ page) (hper : 1 ≤ perPage) (htotal : 0 < store.length)
    (hle : page ≤ totalPages store.length perPage) :
    (fetchMovies store page perPage).isEmpty = false ∧
    ∃ r, get_movies store page perPage = .ok r := by
  have hemp := fetchMovies_isEmpty_false hpage hper htotal hle
  refine ⟨hemp, ?_⟩
  have h0 : ¬(store.length = 0) := by omega
  have h1 : ¬(totalPages store.length perPage < page) := by omega
  unfold get_movies
  simp [h0, h1, hemp]

/-- C10 witness: one movie, page 1, page size 10. -/
theorem claim_C10_witness :
    (fetchMovies [sampleMovie] 1 10).isEmpty = false ∧
    ∃ r, get_movies [sampleMovie] 1 10 = .ok r :=
  claim_C10 [sampleMovie] 1 10 (by decide) (by decide) (by decide)
    (by decide)
